import Mathlib

/-!
Shallow embedding of the double-buffered WebGPU Game-of-Life loop from the
repository Floriansylvain/WhateverWebGPU.

The repository holds near-duplicate variants of the same program.  Namespace
`P0` embeds the engine variant (src/unnamed/part_000: classes `Buffers`,
`PipelineFactory`, `Simulation`, `Renderer`, `Engine`), namespace `P1` the
earlier variant (src/unnamed/part_001).  Machine integers are modelled as
`Nat` (timestamps are nonnegative rAF milliseconds; all subtractions in the
sources compare monotone timestamps, so truncated `Nat` subtraction agrees
with JS number subtraction on the reachable states), random draws from
`Math.random()` as rationals in `[0, 1)`, and GPU buffer contents as lists.
-/

/-- GPUShaderStage.VERTEX bit flag (WebGPU constant used by the sources). -/
def STAGE_VERTEX : Nat := 1

/-- GPUShaderStage.FRAGMENT bit flag. -/
def STAGE_FRAGMENT : Nat := 2

/-- GPUShaderStage.COMPUTE bit flag. -/
def STAGE_COMPUTE : Nat := 4

/-- Identifiers for the GPU buffers the variants create: the grid-size
uniform, the time uniform, and the two cell-state storage buffers
(`state 0` is "State A"/"Cell State A", `state 1` is "State B"). -/
inductive Buf where
  | gridUniform
  | timeUniform
  | state (i : Nat)
deriving DecidableEq, Repr

/-- Buffer binding types appearing in the bind group layouts. -/
inductive BufKind where
  | uniform
  | readOnlyStorage
  | storage
deriving DecidableEq, Repr

/-- One entry of a GPUBindGroupLayout descriptor: binding slot number,
shader-stage visibility mask, buffer type. -/
structure LayoutEntry where
  binding : Nat
  visibility : Nat
  kind : BufKind
deriving DecidableEq, Repr

/-- One bind group: the buffer bound at each of the four binding slots
(0 = grid uniform, 1 = time uniform, 2 = read-only storage,
3 = writable storage). -/
structure BindGroup where
  b0 : Buf
  b1 : Buf
  b2 : Buf
  b3 : Buf
deriving DecidableEq, Repr

/-- Host-visible GPU work recorded during one tick, in the order the
source issues it (pass encodings, immediate queue writes, the submit,
and the requestAnimationFrame call that schedules the next tick). -/
inductive Op where
  | computePass (group : BindGroup) (wx wy : Nat)
  | renderPass (group : BindGroup) (vertexCount instanceCount : Nat)
  | writeTime (seconds : Rat)
  | submit
  | schedule
deriving DecidableEq, Repr

/-- Mutable fields of the `Renderer` class, shared by both variants
(part_001 names them lastFrameTime / frameCount / fps / bindGroupIndex /
lastBindGroupSwitchTime; part_000 names them lastFrame / frameCount /
fps / bindGroupIndex / lastSwitch).  All are initialised to 0. -/
structure RendererState where
  lastFrame : Nat
  frameCount : Nat
  fps : Nat
  bindGroupIndex : Nat
  lastSwitch : Nat
deriving DecidableEq, Repr

/-- Contents of the two cell-state storage buffers. -/
structure StateBuffers where
  bufA : List Nat
  bufB : List Nat
deriving DecidableEq, Repr

/-- Reads the contents of a state buffer named by a `Buf` id
(only the two state buffers are readable storage here). -/
def StateBuffers.read (bufs : StateBuffers) : Buf → List Nat
  | .state 0 => bufs.bufA
  | .state 1 => bufs.bufB
  | _ => []

/-- Overwrites the contents of the state buffer named by a `Buf` id. -/
def StateBuffers.store (bufs : StateBuffers) : Buf → List Nat → StateBuffers
  | .state 0, v => { bufs with bufA := v }
  | .state 1, v => { bufs with bufB := v }
  | _, _ => bufs

/-- Embeds `Math.ceil(n / 8)` on a natural grid size, as used for the
workgroup count in both variants' compute dispatch. -/
def ceilDiv8 (n : Nat) : Nat := (n + 7) / 8

/-- Modelled from the spec: the simulation kernel (shaders/simulation.wgsl,
not included in src/) declares `workgroup_size(8,8)`, i.e. 8x8 cells per
workgroup tile. -/
def workgroupSize : Nat := 8

/-- Embeds `Math.random() > 0.6 ? 1 : 0` from part_000
`Buffers.createStateBuffers` / `Simulation.reset` and part_001
`createStateStorageBuffers`: a cell is live iff its draw exceeds 3/5. -/
def liveCell (r : Rat) : Nat := if 3 / 5 < r then 1 else 0

/-- One random fill of `n` cells: cell `i` is computed from its own
independent draw `randoms i` (the sources call `Math.random()` once per
element of the `Uint32Array`). -/
def randomDraw (n : Nat) (randoms : Nat → Rat) : List Nat :=
  (List.range n).map fun i => liveCell (randoms i)

/-- Embeds the vertex data `[-0.8, -0.8, 0.8, -0.8, 0.8, 0.8, -0.8, -0.8,
0.8, 0.8, -0.8, 0.8]` shared by all variants. -/
def cellVertices : List Rat :=
  [-(4/5), -(4/5), 4/5, -(4/5), 4/5, 4/5, -(4/5), -(4/5), 4/5, 4/5, -(4/5), 4/5]

/-- Embeds part_000 `PipelineFactory.createBindGroupLayout`: binding 0 has
visibility 7, binding 1 (the time uniform) visibility 2 (fragment only),
binding 2 visibility 5 (vertex + compute, read-only storage), binding 3
visibility 4 (compute only, writable storage). -/
def P0.createBindGroupLayout : List LayoutEntry :=
  [⟨0, 7, .uniform⟩, ⟨1, 2, .uniform⟩, ⟨2, 5, .readOnlyStorage⟩, ⟨3, 4, .storage⟩]

/-- Embeds part_001 `createBindGroupLayout`: same four entries built from
the named GPUShaderStage flags. -/
def P1.createBindGroupLayout : List LayoutEntry :=
  [⟨0, STAGE_FRAGMENT ||| STAGE_VERTEX ||| STAGE_COMPUTE, .uniform⟩,
   ⟨1, STAGE_FRAGMENT, .uniform⟩,
   ⟨2, STAGE_VERTEX ||| STAGE_COMPUTE, .readOnlyStorage⟩,
   ⟨3, STAGE_COMPUTE, .storage⟩]

/-- Embeds part_000 `Simulation.createBindGroups`: bind group 0 binds
state buffer 0 at binding 2 (read) and state buffer 1 at binding 3
(write); bind group 1 mirrors them. -/
def P0.createBindGroups : List BindGroup :=
  [⟨.gridUniform, .timeUniform, .state 0, .state 1⟩,
   ⟨.gridUniform, .timeUniform, .state 1, .state 0⟩]

/-- Embeds part_001 `createBindGroups` (bind groups A and B): the same
mirrored pair of binding tuples. -/
def P1.createBindGroups : List BindGroup :=
  [⟨.gridUniform, .timeUniform, .state 0, .state 1⟩,
   ⟨.gridUniform, .timeUniform, .state 1, .state 0⟩]

/-- JS array indexing `bindGroups[i]` for part_000 (`i` is always 0 or 1
on reachable states; the default is unreachable). -/
def P0.bindGroupAt (i : Nat) : BindGroup :=
  P0.createBindGroups.getD i ⟨.gridUniform, .timeUniform, .state 0, .state 1⟩

/-- JS array indexing `bindGroups[i]` for part_001. -/
def P1.bindGroupAt (i : Nat) : BindGroup :=
  P1.createBindGroups.getD i ⟨.gridUniform, .timeUniform, .state 0, .state 1⟩

/-- Initial `Renderer` fields in both variants: every field starts at 0. -/
def P0.initRenderer : RendererState := ⟨0, 0, 0, 0, 0⟩

/-- Embeds part_000 `Renderer.updateFPS`: seed `lastFrame` on the first
frame, count the frame, and roll the 1000 ms FPS window. -/
def P0.updateFPS (s : RendererState) (timeMs : Nat) : RendererState :=
  let s1 := if s.lastFrame = 0 then { s with lastFrame := timeMs } else s
  let s2 := { s1 with frameCount := s1.frameCount + 1 }
  if 1000 ≤ timeMs - s2.lastFrame then
    { s2 with fps := s2.frameCount, frameCount := 0, lastFrame := timeMs }
  else s2

/-- Embeds the flip decision and compute-pass encoding of part_000
`Renderer.runComputePass`: when `timeMs - lastSwitch` reaches the
interval, toggle `bindGroupIndex` and record the switch time, then encode
the compute pass with the (possibly just-flipped) bind group and a
ceil(gridSize/8) x ceil(gridSize/8) dispatch. -/
def P0.runComputePass (interval gridSize : Nat) (s : RendererState) (timeMs : Nat) :
    RendererState × Op :=
  let s1 :=
    if interval ≤ timeMs - s.lastSwitch then
      { s with bindGroupIndex := (s.bindGroupIndex + 1) % 2, lastSwitch := timeMs }
    else s
  (s1, .computePass (P0.bindGroupAt s1.bindGroupIndex) (ceilDiv8 gridSize) (ceilDiv8 gridSize))

/-- Embeds part_000 `Renderer.runRenderPass`: the render pass uses the same
`bindGroupIndex` the compute pass just used, drawing
`vertices.length / 2` vertices and gridSize^2 instances. -/
def P0.runRenderPass (gridSize : Nat) (s : RendererState) : Op :=
  .renderPass (P0.bindGroupAt s.bindGroupIndex) (cellVertices.length / 2) (gridSize * gridSize)

/-- Embeds part_000 `Renderer.render`: update FPS, encode the compute pass
(flip decision inside), encode the render pass, write the time uniform
(`timeMs / 1000` seconds), submit the batch, schedule the next tick. -/
def P0.render (interval gridSize : Nat) (s : RendererState) (timeMs : Nat) :
    RendererState × List Op :=
  let s1 := P0.updateFPS s timeMs
  let (s2, cop) := P0.runComputePass interval gridSize s1 timeMs
  let rop := P0.runRenderPass gridSize s2
  (s2, [cop, rop, .writeTime ((timeMs : Rat) / 1000), .submit, .schedule])

/-- Runs part_000's frame loop over a list of tick timestamps. -/
def P0.run (interval gridSize : Nat) (s : RendererState) : List Nat → RendererState
  | [] => s
  | t :: ts => P0.run interval gridSize (P0.render interval gridSize s t).1 ts

/-- Counts the direction flips performed over a tick stream: a tick flips
exactly when it changes `bindGroupIndex`. -/
def P0.runFlips (interval gridSize : Nat) (s : RendererState) : List Nat → Nat
  | [] => 0
  | t :: ts =>
    let s1 := (P0.render interval gridSize s t).1
    (if s1.bindGroupIndex = s.bindGroupIndex then 0 else 1)
      + P0.runFlips interval gridSize s1 ts

/-- Embeds part_001 `Renderer.updateFpsCount` (same logic as part_000
`updateFPS`). -/
def P1.updateFpsCount (s : RendererState) (timeMs : Nat) : RendererState :=
  let s1 := if s.lastFrame = 0 then { s with lastFrame := timeMs } else s
  let s2 := { s1 with frameCount := s1.frameCount + 1 }
  if 1000 ≤ timeMs - s2.lastFrame then
    { s2 with fps := s2.frameCount, frameCount := 0, lastFrame := timeMs }
  else s2

/-- Embeds part_001 `Renderer.updateBindGroupIndex`: toggle
`bindGroupIndex` modulo `bindGroups.length` (= 2) when the interval has
elapsed and record the switch time. -/
def P1.updateBindGroupIndex (interval : Nat) (s : RendererState) (timeMs : Nat) :
    RendererState :=
  if interval ≤ timeMs - s.lastSwitch then
    { s with bindGroupIndex := (s.bindGroupIndex + 1) % 2, lastSwitch := timeMs }
  else s

/-- Embeds part_001 `Renderer.render`: encode the compute pass with the
pre-flip bind group, then (time conversion, FPS update,) write the time
uniform, apply the flip decision, encode the render pass with the
post-flip bind group, submit, schedule the next tick. -/
def P1.render (interval gridSize : Nat) (s : RendererState) (timeMs : Nat) :
    RendererState × List Op :=
  let cop := Op.computePass (P1.bindGroupAt s.bindGroupIndex)
      (ceilDiv8 gridSize) (ceilDiv8 gridSize)
  let s1 := P1.updateFpsCount s timeMs
  let s2 := P1.updateBindGroupIndex interval s1 timeMs
  let rop := Op.renderPass (P1.bindGroupAt s2.bindGroupIndex)
      (cellVertices.length / 2) (gridSize * gridSize)
  (s2, [cop, .writeTime ((timeMs : Rat) / 1000), rop, .submit, .schedule])

/-- Embeds part_000 `Buffers.createStateBuffers`: draw one random fill of
size*size cells, allocate the two (zero-filled) storage buffers, and write
the same data into both. -/
def P0.createStateBuffers (size : Nat) (randoms : Nat → Rat) : StateBuffers :=
  let data := randomDraw (size * size) randoms
  let bufs : StateBuffers :=
    ⟨List.replicate (size * size) 0, List.replicate (size * size) 0⟩
  let bufs1 := { bufs with bufA := data }
  { bufs1 with bufB := data }

/-- Embeds part_001 `createStateStorageBuffers`: allocate both (zero-filled)
storage buffers, fill the staging array with one random draw, and write it
into buffer 0 only; buffer 1 keeps its zero contents. -/
def P1.createStateStorageBuffers (gridSize : Nat) (randoms : Nat → Rat) : StateBuffers :=
  let n := gridSize * gridSize
  let cellStateArray := randomDraw n randoms
  let bufs : StateBuffers := ⟨List.replicate n 0, List.replicate n 0⟩
  { bufs with bufA := cellStateArray }

/-- The buffer the tick's compute pass writes: binding 3 of the bind group
set on the first compute pass of the op trace. -/
def computeWriteBuf (ops : List Op) : Option Buf :=
  ops.findSome? fun op =>
    match op with
    | .computePass g _ _ => some g.b3
    | _ => none

/-- The buffer the tick's render pass reads its cell states from: binding 2
of the bind group set on the first render pass of the op trace. -/
def renderReadBuf (ops : List Op) : Option Buf :=
  ops.findSome? fun op =>
    match op with
    | .renderPass g _ _ => some g.b2
    | _ => none

/-- The bind group used by the tick's compute pass. -/
def computeGroupOf (ops : List Op) : Option BindGroup :=
  ops.findSome? fun op =>
    match op with
    | .computePass g _ _ => some g
    | _ => none

/-- The bind group used by the tick's render pass. -/
def renderGroupOf (ops : List Op) : Option BindGroup :=
  ops.findSome? fun op =>
    match op with
    | .renderPass g _ _ => some g
    | _ => none

/-- The workgroup counts of the tick's compute dispatch. -/
def computeDispatchOf (ops : List Op) : Option (Nat × Nat) :=
  ops.findSome? fun op =>
    match op with
    | .computePass _ wx wy => some (wx, wy)
    | _ => none

/-- Recognises the time-uniform queue write within a tick's op trace. -/
def Op.isWriteTime : Op → Bool
  | .writeTime _ => true
  | _ => false

/-- Full per-session engine state for part_000's `Engine`: grid size, the
uniform/vertex buffer contents, both state buffers, the `Renderer` fields,
and whether a next tick is scheduled (`animationFrameId !== null`). -/
structure EngineState where
  gridSize : Nat
  gridUniform : List Rat
  timeCell : Rat
  vertexBuf : List Rat
  stateBufs : StateBuffers
  renderer : RendererState
  scheduled : Bool
deriving DecidableEq, Repr

/-- Embeds part_000 `Engine.init`: allocate the grid uniform (`[N, N]`),
the time buffer (zeroed), the vertex buffer, two freshly drawn state
buffers, a fresh `Renderer` (all counters 0), and schedule the first
tick. -/
def Engine.init (gridSize : Nat) (randoms : Nat → Rat) : EngineState :=
  { gridSize := gridSize
    gridUniform := [(gridSize : Rat), (gridSize : Rat)]
    timeCell := 0
    vertexBuf := cellVertices
    stateBufs := P0.createStateBuffers gridSize randoms
    renderer := P0.initRenderer
    scheduled := true }

/-- Embeds part_000 `Simulation.reset` (invoked by the reset button with
the current GRID_SIZE): draw one fresh random fill and write the same
data into each of the two state buffers; nothing else is touched. -/
def Simulation.reset (randoms : Nat → Rat) (s : EngineState) : EngineState :=
  let data := randomDraw (s.gridSize * s.gridSize) randoms
  { s with stateBufs := ⟨data, data⟩ }

/-- Embeds part_000 `Engine.stopRendering`: cancel the pending
animation-frame request. -/
def Engine.stopRendering (s : EngineState) : EngineState :=
  { s with scheduled := false }

/-- Embeds part_000's grid-size-change handler: stop rendering (cancelling
the pending tick), then rebuild the whole session from scratch at the new
size via `Engine.init`.  Returns the intermediate cancelled state and the
final state. -/
def Engine.onGridSizeChange (newSize : Nat) (randoms : Nat → Rat) (s : EngineState) :
    EngineState × EngineState :=
  let stopped := Engine.stopRendering s
  (stopped, Engine.init newSize randoms)

/-- GPU-side state relevant to the simulation: the two state buffers and
the time-uniform cell. -/
structure GpuState where
  bufs : StateBuffers
  timeCell : Rat
deriving DecidableEq, Repr

/-- Effect of one compute dispatch on the state buffers: the opaque kernel
`f` reads the buffer bound at binding 2 (read-only storage) and overwrites
the buffer bound at binding 3 (writable storage).  The bind group layout
gives the compute stage no visibility of binding 1 (the time uniform), so
`f` cannot depend on the time cell. -/
def computeEffect (f : List Nat → List Nat) (g : BindGroup) (bufs : StateBuffers) :
    StateBuffers :=
  bufs.store g.b3 (f (bufs.read g.b2))

/-- Interprets one recorded op against the GPU state: a compute pass
applies the kernel, a time write updates the time cell, render/submit/
schedule leave the modelled state unchanged (the render pass only reads). -/
def applyOp (f : List Nat → List Nat) (g : GpuState) : Op → GpuState
  | .computePass grp _ _ => { g with bufs := computeEffect f grp g.bufs }
  | .writeTime v => { g with timeCell := v }
  | _ => g

/-- Intervention point for the time channel: replace the value carried by
the tick's time write, leaving every other op unchanged. -/
def overrideTime (tv : Rat) : Op → Op
  | .writeTime _ => .writeTime tv
  | op => op

/-- One part_000 tick together with its GPU effects, with the value written
to the time uniform overridden by `tv` (the unmodified program writes
`timeMs / 1000`). -/
def P0.tickGpu (f : List Nat → List Nat) (interval gridSize : Nat)
    (p : RendererState × GpuState) (timeMs : Nat) (tv : Rat) :
    RendererState × GpuState :=
  ((P0.render interval gridSize p.1 timeMs).1,
   ((P0.render interval gridSize p.1 timeMs).2.map (overrideTime tv)).foldl
     (applyOp f) p.2)

/-- Runs part_000's loop with GPU effects over a tick-timestamp list, the
k-th tick's time write carrying `vals k`. -/
def P0.runGpu (f : List Nat → List Nat) (interval gridSize : Nat) (vals : Nat → Rat)
    (p : RendererState × GpuState) : List Nat → RendererState × GpuState
  | [] => p
  | t :: ts =>
    P0.runGpu f interval gridSize (fun k => vals (k + 1))
      (P0.tickGpu f interval gridSize p t (vals 0)) ts

/-- The concrete tick-timestamp stream of the spec's scenario: 62 ticks at
a 60 Hz cadence, `floor(50 k / 3)` ms for k = 0..61, i.e.
0, 16, 33, 50, ..., 983, 1000, 1016. -/
def demoTicks : List Nat := (List.range 62).map fun k => 50 * k / 3

/-- A concrete stream of random draws: every draw is 7/10 (> 3/5, so every
cell comes out live). -/
def demoRandoms : Nat → Rat := fun _ => 7 / 10

theorem toggle_le_one (i : Nat) : (i + 1) % 2 ≤ 1 :=
  Nat.le_of_lt_succ (Nat.mod_lt _ (by decide))

theorem toggle_ne (i : Nat) : (i + 1) % 2 ≠ i := by
  rcases Nat.lt_or_ge i 2 with h | h
  · interval_cases i <;> decide
  · have h2 : (i + 1) % 2 < 2 := Nat.mod_lt _ (by decide)
    omega

theorem P0.render_bindGroupIndex (interval gridSize : Nat) (s : RendererState) (t : Nat) :
    (P0.render interval gridSize s t).1.bindGroupIndex =
      if interval ≤ t - s.lastSwitch then (s.bindGroupIndex + 1) % 2
      else s.bindGroupIndex := by
  cases s
  simp only [P0.render, P0.runComputePass, P0.updateFPS]
  split_ifs <;> rfl

theorem P0.render_lastSwitch (interval gridSize : Nat) (s : RendererState) (t : Nat) :
    (P0.render interval gridSize s t).1.lastSwitch =
      if interval ≤ t - s.lastSwitch then t else s.lastSwitch := by
  cases s
  simp only [P0.render, P0.runComputePass, P0.updateFPS]
  split_ifs <;> rfl

theorem P0.render_ops (interval gridSize : Nat) (s : RendererState) (t : Nat) :
    (P0.render interval gridSize s t).2 =
      [Op.computePass (P0.bindGroupAt (P0.render interval gridSize s t).1.bindGroupIndex)
         (ceilDiv8 gridSize) (ceilDiv8 gridSize),
       Op.renderPass (P0.bindGroupAt (P0.render interval gridSize s t).1.bindGroupIndex)
         (cellVertices.length / 2) (gridSize * gridSize),
       Op.writeTime ((t : Rat) / 1000), Op.submit, Op.schedule] := by
  cases s
  simp only [P0.render, P0.runComputePass, P0.runRenderPass, P0.updateFPS]

theorem P0.render_idx_le_one (interval gridSize : Nat) (s : RendererState) (t : Nat)
    (h : s.bindGroupIndex ≤ 1) :
    (P0.render interval gridSize s t).1.bindGroupIndex ≤ 1 := by
  rw [P0.render_bindGroupIndex]
  split
  · exact toggle_le_one _
  · exact h

theorem P0.run_idx_le_one (interval gridSize : Nat) (ts : List Nat) (s : RendererState)
    (h : s.bindGroupIndex ≤ 1) :
    (P0.run interval gridSize s ts).bindGroupIndex ≤ 1 := by
  induction ts generalizing s with
  | nil => exact h
  | cons t ts ih => exact ih _ (P0.render_idx_le_one _ _ _ _ h)

theorem P0.bindGroupAt_b2 (i : Nat) (h : i ≤ 1) :
    (P0.bindGroupAt i).b2 = Buf.state i := by
  interval_cases i <;> rfl

theorem P0.bindGroupAt_b3 (i : Nat) (h : i ≤ 1) :
    (P0.bindGroupAt i).b3 = Buf.state (1 - i) := by
  interval_cases i <;> rfl

/-- C1 (amended): in the part_000 engine, on every tick of the frame loop
(every state reachable from the initial renderer, including the very first
tick), the buffer the compute dispatch writes (binding 3 of the bind group
the compute pass uses) is `state (1 - d)` and the buffer the render pass
reads (binding 2 of the bind group the render pass uses) is `state d`,
where `d` is the tick's active direction, so they are never the same
buffer.  (In the part_001 variant this fails on flip ticks, see the
counterexample.) -/
theorem c1_render_never_reads_compute_target (interval gridSize : Nat)
    (ts : List Nat) (t : Nat) :
    computeWriteBuf
        (P0.render interval gridSize (P0.run interval gridSize P0.initRenderer ts) t).2 =
      some (Buf.state
        (1 - (P0.render interval gridSize (P0.run interval gridSize P0.initRenderer ts) t).1.bindGroupIndex)) ∧
    renderReadBuf
        (P0.render interval gridSize (P0.run interval gridSize P0.initRenderer ts) t).2 =
      some (Buf.state
        (P0.render interval gridSize (P0.run interval gridSize P0.initRenderer ts) t).1.bindGroupIndex) ∧
    computeWriteBuf
        (P0.render interval gridSize (P0.run interval gridSize P0.initRenderer ts) t).2 ≠
      renderReadBuf
        (P0.render interval gridSize (P0.run interval gridSize P0.initRenderer ts) t).2 := by
  have hidx : (P0.run interval gridSize P0.initRenderer ts).bindGroupIndex ≤ 1 :=
    P0.run_idx_le_one interval gridSize ts P0.initRenderer (by decide)
  have hidx' := P0.render_idx_le_one interval gridSize
    (P0.run interval gridSize P0.initRenderer ts) t hidx
  have hA : computeWriteBuf
      (P0.render interval gridSize (P0.run interval gridSize P0.initRenderer ts) t).2 =
      some ((P0.bindGroupAt
        (P0.render interval gridSize (P0.run interval gridSize P0.initRenderer ts) t).1.bindGroupIndex).b3) := by
    rw [P0.render_ops]
    rfl
  have hB : renderReadBuf
      (P0.render interval gridSize (P0.run interval gridSize P0.initRenderer ts) t).2 =
      some ((P0.bindGroupAt
        (P0.render interval gridSize (P0.run interval gridSize P0.initRenderer ts) t).1.bindGroupIndex).b2) := by
    rw [P0.render_ops]
    rfl
  rw [hA, hB, P0.bindGroupAt_b2 _ hidx', P0.bindGroupAt_b3 _ hidx']
  refine ⟨rfl, rfl, ?_⟩
  simp only [ne_eq, Option.some.injEq, Buf.state.injEq]
  omega

/-- C1 counterexample: in the part_001 variant, at the tick with timestamp
100 ms from the initial renderer state (interval 100 ms, grid 64), the
direction flips between the compute and the render encodings; the compute
pass writes state buffer 1 and the render pass reads that very same
buffer, so the render pass does read the buffer the same tick's compute
dispatch writes. -/
theorem c1_counterexample :
    computeWriteBuf (P1.render 100 64 ⟨0, 0, 0, 0, 0⟩ 100).2 = some (Buf.state 1) ∧
    renderReadBuf (P1.render 100 64 ⟨0, 0, 0, 0, 0⟩ 100).2 = some (Buf.state 1) ∧
    computeWriteBuf (P1.render 100 64 ⟨0, 0, 0, 0, 0⟩ 100).2 =
      renderReadBuf (P1.render 100 64 ⟨0, 0, 0, 0, 0⟩ 100).2 := by
  refine ⟨rfl, rfl, rfl⟩

/-- C2 (amended): in the part_000 engine, every tick encodes, in order,
the compute pass, the render pass, the time-uniform write (`t/1000`
seconds), one submit of the whole batch, and the scheduling of the next
tick; the flip decision (toggle when `interval ≤ t - lastSwitch`) is
applied before the compute pass is encoded, and the compute and render
passes use the same, possibly just-flipped, bind group.  (In the part_001
variant the flip is instead applied between the compute and render
encodings and the time write precedes the render pass, see the
counterexample.) -/
theorem c2_tick_order (interval gridSize t : Nat) (s : RendererState) :
    (P0.render interval gridSize s t).2 =
      [Op.computePass (P0.bindGroupAt (P0.render interval gridSize s t).1.bindGroupIndex)
         (ceilDiv8 gridSize) (ceilDiv8 gridSize),
       Op.renderPass (P0.bindGroupAt (P0.render interval gridSize s t).1.bindGroupIndex)
         (cellVertices.length / 2) (gridSize * gridSize),
       Op.writeTime ((t : Rat) / 1000), Op.submit, Op.schedule] ∧
    (P0.render interval gridSize s t).1.bindGroupIndex =
      (if interval ≤ t - s.lastSwitch then (s.bindGroupIndex + 1) % 2
       else s.bindGroupIndex) ∧
    (P0.render interval gridSize s t).1.lastSwitch =
      (if interval ≤ t - s.lastSwitch then t else s.lastSwitch) :=
  ⟨P0.render_ops interval gridSize s t,
   P0.render_bindGroupIndex interval gridSize s t,
   P0.render_lastSwitch interval gridSize s t⟩

/-- C2 counterexample: in the part_001 variant, at the flip tick with
timestamp 100 ms from the initial state, the second host operation of the
tick is the time-uniform write (so the write precedes the render-pass
encoding), and the compute and render passes use different bind groups
(the flip is applied after the compute pass was encoded). -/
theorem c2_counterexample :
    (P1.render 100 64 ⟨0, 0, 0, 0, 0⟩ 100).2.get? 1 =
      some (Op.writeTime ((100 : Rat) / 1000)) ∧
    computeGroupOf (P1.render 100 64 ⟨0, 0, 0, 0, 0⟩ 100).2 = some (P1.bindGroupAt 0) ∧
    renderGroupOf (P1.render 100 64 ⟨0, 0, 0, 0, 0⟩ 100).2 = some (P1.bindGroupAt 1) ∧
    P1.bindGroupAt 0 ≠ P1.bindGroupAt 1 := by
  refine ⟨rfl, rfl, rfl, by decide⟩

/-- C4: the active direction is always in the set 0..1 — both along any
run of part_000's loop from the initial state and after any single tick
from a well-formed state — and every flip (whether part_000's
`runComputePass` toggle or part_001's `updateBindGroupIndex`) replaces the
direction by exactly the other value, never repeating a value immediately
and never skipping, so consecutive flips strictly alternate between 0
and 1. -/
theorem c4_direction_alternates (interval gridSize t : Nat) (ts : List Nat)
    (s : RendererState) (h : s.bindGroupIndex ≤ 1) :
    (P0.run interval gridSize P0.initRenderer ts).bindGroupIndex ≤ 1 ∧
    (P0.render interval gridSize s t).1.bindGroupIndex ≤ 1 ∧
    ((P0.render interval gridSize s t).1.bindGroupIndex ≠ s.bindGroupIndex →
      (P0.render interval gridSize s t).1.bindGroupIndex = 1 - s.bindGroupIndex) ∧
    (P1.updateBindGroupIndex interval s t).bindGroupIndex ≤ 1 ∧
    ((P1.updateBindGroupIndex interval s t).bindGroupIndex ≠ s.bindGroupIndex →
      (P1.updateBindGroupIndex interval s t).bindGroupIndex = 1 - s.bindGroupIndex) := by
  refine ⟨P0.run_idx_le_one interval gridSize ts P0.initRenderer (by decide),
    P0.render_idx_le_one interval gridSize s t h, ?_, ?_, ?_⟩
  · rw [P0.render_bindGroupIndex]
    split
    · intro _
      omega
    · intro hne
      exact absurd rfl hne
  · unfold P1.updateBindGroupIndex
    split
    · exact toggle_le_one _
    · exact h
  · unfold P1.updateBindGroupIndex
    split
    · intro _
      simp only
      omega
    · intro hne
      exact absurd rfl hne

/-- C4 witness: at interval 100, grid 64, tick 100 from the initial
state, the instantiated alternation facts hold. -/
theorem c4_direction_alternates_witness :
    (⟨0, 0, 0, 0, 0⟩ : RendererState).bindGroupIndex ≤ 1 ∧
    ((P0.run 100 64 P0.initRenderer [0, 100]).bindGroupIndex ≤ 1 ∧
     (P0.render 100 64 ⟨0, 0, 0, 0, 0⟩ 100).1.bindGroupIndex ≤ 1 ∧
     ((P0.render 100 64 ⟨0, 0, 0, 0, 0⟩ 100).1.bindGroupIndex ≠
        (⟨0, 0, 0, 0, 0⟩ : RendererState).bindGroupIndex →
       (P0.render 100 64 ⟨0, 0, 0, 0, 0⟩ 100).1.bindGroupIndex =
         1 - (⟨0, 0, 0, 0, 0⟩ : RendererState).bindGroupIndex) ∧
     (P1.updateBindGroupIndex 100 ⟨0, 0, 0, 0, 0⟩ 100).bindGroupIndex ≤ 1 ∧
     ((P1.updateBindGroupIndex 100 ⟨0, 0, 0, 0, 0⟩ 100).bindGroupIndex ≠
        (⟨0, 0, 0, 0, 0⟩ : RendererState).bindGroupIndex →
       (P1.updateBindGroupIndex 100 ⟨0, 0, 0, 0, 0⟩ 100).bindGroupIndex =
         1 - (⟨0, 0, 0, 0, 0⟩ : RendererState).bindGroupIndex)) :=
  ⟨by decide, c4_direction_alternates 100 64 100 [0, 100] ⟨0, 0, 0, 0, 0⟩ (by decide)⟩

theorem P0.runFlips_le (interval gridSize bound : Nat) (hI : 0 < interval)
    (ts : List Nat) (s : RendererState) (hts : ∀ x ∈ ts, x ≤ bound)
    (hs : s.lastSwitch ≤ bound) :
    P0.runFlips interval gridSize s ts ≤ (bound - s.lastSwitch) / interval := by
  induction ts generalizing s with
  | nil => exact Nat.zero_le _
  | cons t ts ih =>
    have ht : t ≤ bound := hts t (List.mem_cons_self t ts)
    have hts' : ∀ x ∈ ts, x ≤ bound := fun x hx => hts x (List.mem_cons_of_mem t hx)
    rw [P0.runFlips]
    by_cases hflip : interval ≤ t - s.lastSwitch
    · have hgap : s.lastSwitch + interval ≤ t := by omega
      have hidx : (P0.render interval gridSize s t).1.bindGroupIndex ≠ s.bindGroupIndex := by
        rw [P0.render_bindGroupIndex, if_pos hflip]
        exact toggle_ne _
      have hls : (P0.render interval gridSize s t).1.lastSwitch = t := by
        rw [P0.render_lastSwitch, if_pos hflip]
      rw [if_neg hidx]
      have hrec := ih (P0.render interval gridSize s t).1 hts' (by rw [hls]; exact ht)
      rw [hls] at hrec
      have hsplit : (bound - s.lastSwitch) / interval =
          (bound - s.lastSwitch - interval) / interval + 1 := by
        rw [Nat.div_eq (bound - s.lastSwitch) interval]
        have : 0 < interval ∧ interval ≤ bound - s.lastSwitch := ⟨hI, by omega⟩
        rw [if_pos this]
      have hmono : (bound - t) / interval ≤ (bound - s.lastSwitch - interval) / interval :=
        Nat.div_le_div_right (by omega)
      omega
    · have hidx : (P0.render interval gridSize s t).1.bindGroupIndex = s.bindGroupIndex := by
        rw [P0.render_bindGroupIndex, if_neg hflip]
      have hls : (P0.render interval gridSize s t).1.lastSwitch = s.lastSwitch := by
        rw [P0.render_lastSwitch, if_neg hflip]
      rw [if_pos hidx]
      have hrec := ih (P0.render interval gridSize s t).1 hts' (by rw [hls]; exact hs)
      rw [hls] at hrec
      omega

/-- C3 (amended): with the compute interval I fixed and positive, every
tick stream whose timestamps all lie within a duration D (counting from
the loop's start, where `lastSwitch` is 0) performs at most floor(D / I)
direction flips — the two-sided floor(D / I) plus or minus 1 bound of the
claim fails for sparse tick streams, see the counterexample — and on the
spec's concrete 60 Hz scenario (I = 100 ms, the 62 tick timestamps
0, 16, 33, ..., 1000, 1016 of `demoTicks`) exactly 10 flips occur. -/
theorem c3_flip_count (interval gridSize bound : Nat) (ts : List Nat)
    (hI : 0 < interval) (hts : ∀ x ∈ ts, x ≤ bound) :
    P0.runFlips interval gridSize P0.initRenderer ts ≤ bound / interval ∧
    P0.runFlips 100 64 P0.initRenderer demoTicks = 10 := by
  constructor
  · have h := P0.runFlips_le interval gridSize bound hI ts P0.initRenderer hts
      (Nat.zero_le _)
    simpa using h
  · decide

/-- C3 witness: the bound and the concrete scenario instantiated at
I = 100, D = 1016, with the `demoTicks` stream itself. -/
theorem c3_flip_count_witness :
    (0 < 100 ∧ ∀ x ∈ demoTicks, x ≤ 1016) ∧
    (P0.runFlips 100 64 P0.initRenderer demoTicks ≤ 1016 / 100 ∧
     P0.runFlips 100 64 P0.initRenderer demoTicks = 10) :=
  ⟨⟨by decide, by decide⟩,
   c3_flip_count 100 64 1016 demoTicks (by decide) (by decide)⟩

/-- C3 counterexample: a sparse tick stream refutes the two-sided bound as
stated: with I = 100 and ticks at 0, 300, 600, 900 ms (duration D = 900),
the loop performs 3 flips, while floor(D / I) = 9, so the flip count is
not floor(D / I) plus or minus 1. -/
theorem c3_counterexample :
    P0.runFlips 100 64 P0.initRenderer [0, 300, 600, 900] = 3 ∧
    (900 : Nat) / 100 = 9 ∧
    ¬(900 / 100 - 1 ≤ P0.runFlips 100 64 P0.initRenderer [0, 300, 600, 900] ∧
      P0.runFlips 100 64 P0.initRenderer [0, 300, 600, 900] ≤ 900 / 100 + 1) := by
  refine ⟨by decide, by decide, by decide⟩

theorem P0.tickGpu_eval (f : List Nat → List Nat) (interval gridSize : Nat)
    (p : RendererState × GpuState) (t : Nat) (tv : Rat) :
    P0.tickGpu f interval gridSize p t tv =
      ((P0.render interval gridSize p.1 t).1,
       ⟨computeEffect f
          (P0.bindGroupAt (P0.render interval gridSize p.1 t).1.bindGroupIndex)
          p.2.bufs, tv⟩) := by
  obtain ⟨s, g⟩ := p
  obtain ⟨bufs, tc⟩ := g
  simp only [P0.tickGpu]
  rw [P0.render_ops]
  rfl

theorem P0.runGpu_time_independent (f : List Nat → List Nat) (interval gridSize : Nat)
    (ts : List Nat) (v1 v2 : Nat → Rat) (p q : RendererState × GpuState)
    (h1 : p.1 = q.1) (h2 : p.2.bufs = q.2.bufs) :
    (P0.runGpu f interval gridSize v1 p ts).1 =
      (P0.runGpu f interval gridSize v2 q ts).1 ∧
    (P0.runGpu f interval gridSize v1 p ts).2.bufs =
      (P0.runGpu f interval gridSize v2 q ts).2.bufs := by
  induction ts generalizing p q v1 v2 with
  | nil => exact ⟨h1, h2⟩
  | cons t ts ih =>
    simp only [P0.runGpu]
    apply ih
    · rw [P0.tickGpu_eval, P0.tickGpu_eval, h1]
    · rw [P0.tickGpu_eval, P0.tickGpu_eval, h1, h2]

/-- C7: the elapsed-time uniform (binding 1) is declared fragment-only in
both variants' bind group layouts (its visibility mask 2 shares no bit
with GPUShaderStage.COMPUTE = 4, so the kernel cannot bind it), each
part_000 tick writes it exactly once, and the simulation state cannot
depend on it: two runs over the same tick stream whose time writes carry
arbitrarily different values leave identical state buffers, whatever the
opaque simulation kernel `f` does. -/
theorem c7_time_noninterference (f : List Nat → List Nat) (interval gridSize : Nat)
    (ts : List Nat) (v1 v2 : Nat → Rat) (p : RendererState × GpuState)
    (s : RendererState) (t : Nat) :
    P0.createBindGroupLayout.get? 1 = some ⟨1, STAGE_FRAGMENT, .uniform⟩ ∧
    P1.createBindGroupLayout.get? 1 = some ⟨1, STAGE_FRAGMENT, .uniform⟩ ∧
    STAGE_FRAGMENT &&& STAGE_COMPUTE = 0 ∧
    (P0.render interval gridSize s t).2.countP Op.isWriteTime = 1 ∧
    (P0.runGpu f interval gridSize v1 p ts).2.bufs =
      (P0.runGpu f interval gridSize v2 p ts).2.bufs := by
  refine ⟨rfl, rfl, rfl, ?_,
    (P0.runGpu_time_independent f interval gridSize ts v1 v2 p p rfl rfl).2⟩
  rw [P0.render_ops]
  rfl

/-- C5 (amended): part_000 session initialisation at grid dimension
`size` allocates exactly two state buffers of size^2 cells and fills both
with the same single random draw, in which cell `i` is computed from its
own draw `randoms i` and is live (1) exactly when the draw exceeds 0.6 —
so under a uniform draw on [0,1) the live probability is the documented
0.4 = 1 - 3/5.  (The part_001 variant instead writes the draw into the
first buffer only, see the counterexample.) -/
theorem c5_state_buffer_init (size : Nat) (randoms : Nat → Rat) (r : Rat)
    (i : Nat) (hi : i < size * size) :
    (P0.createStateBuffers size randoms).bufA =
      (P0.createStateBuffers size randoms).bufB ∧
    (P0.createStateBuffers size randoms).bufA = randomDraw (size * size) randoms ∧
    (P0.createStateBuffers size randoms).bufA.length = size * size ∧
    (P0.createStateBuffers size randoms).bufA.get? i = some (liveCell (randoms i)) ∧
    (liveCell r = 1 ↔ 3 / 5 < r) ∧
    (1 : Rat) - 3 / 5 = 2 / 5 := by
  refine ⟨rfl, rfl, by simp [P0.createStateBuffers, randomDraw], ?_, ?_, by norm_num⟩
  · show (randomDraw (size * size) randoms).get? i = some (liveCell (randoms i))
    rw [randomDraw, List.get?_eq_getElem?, List.getElem?_map, List.getElem?_range hi]
    rfl
  · unfold liveCell
    split
    · simp [*]
    · simp [*]

/-- C5 witness: at size 2 with every draw 7/10 all conclusions hold, in
particular cell 3 of buffer A is `liveCell (7/10)` = 1. -/
theorem c5_state_buffer_init_witness :
    (3 < 2 * 2) ∧
    ((P0.createStateBuffers 2 demoRandoms).bufA =
       (P0.createStateBuffers 2 demoRandoms).bufB ∧
     (P0.createStateBuffers 2 demoRandoms).bufA = randomDraw (2 * 2) demoRandoms ∧
     (P0.createStateBuffers 2 demoRandoms).bufA.length = 2 * 2 ∧
     (P0.createStateBuffers 2 demoRandoms).bufA.get? 3 =
       some (liveCell (demoRandoms 3)) ∧
     (liveCell ((7 : Rat) / 10) = 1 ↔ 3 / 5 < (7 : Rat) / 10) ∧
     (1 : Rat) - 3 / 5 = 2 / 5) :=
  ⟨by decide, c5_state_buffer_init 2 demoRandoms ((7 : Rat) / 10) 3 (by decide)⟩

/-- C5 counterexample: in the part_001 variant (grid 64, every draw 7/10
so every drawn cell is live), cell 0 of buffer A is 1 but cell 0 of
buffer B is 0: the two buffers do not hold the same draw, because only
buffer 0 is written and buffer 1 keeps its zero fill. -/
theorem c5_counterexample :
    (P1.createStateStorageBuffers 64 demoRandoms).bufA.get? 0 = some 1 ∧
    (P1.createStateStorageBuffers 64 demoRandoms).bufB.get? 0 = some 0 ∧
    (P1.createStateStorageBuffers 64 demoRandoms).bufA ≠
      (P1.createStateStorageBuffers 64 demoRandoms).bufB := by
  have hA : (P1.createStateStorageBuffers 64 demoRandoms).bufA.get? 0 = some 1 := by
    simp only [P1.createStateStorageBuffers]
    rw [randomDraw, List.get?_eq_getElem?, List.getElem?_map,
      List.getElem?_range (by norm_num)]
    have hlive : liveCell (demoRandoms 0) = 1 := by
      unfold liveCell demoRandoms
      norm_num
    simp [hlive]
  have hB : (P1.createStateStorageBuffers 64 demoRandoms).bufB.get? 0 = some 0 := by
    simp only [P1.createStateStorageBuffers]
    decide
  refine ⟨hA, hB, ?_⟩
  intro h
  have h0 : (P1.createStateStorageBuffers 64 demoRandoms).bufA.get? 0 =
      (P1.createStateStorageBuffers 64 demoRandoms).bufB.get? 0 := by rw [h]
  rw [hA, hB] at h0
  exact absurd h0 (by decide)

/-- C6: for every positive grid dimension `gridSize` (including sizes not
divisible by 8), both variants' ticks dispatch ceil(gridSize/8) workgroups
in each of the two dimensions, and with the kernel's 8x8-cell workgroup
tile (modelled from the spec) the tiled region covers the whole
gridSize x gridSize domain without exceeding it by a full tile. -/
theorem c6_dispatch_covers (interval gridSize t : Nat) (s : RendererState)
    (h : 0 < gridSize) :
    computeDispatchOf (P0.render interval gridSize s t).2 =
      some (ceilDiv8 gridSize, ceilDiv8 gridSize) ∧
    computeDispatchOf (P1.render interval gridSize s t).2 =
      some (ceilDiv8 gridSize, ceilDiv8 gridSize) ∧
    gridSize ≤ workgroupSize * ceilDiv8 gridSize ∧
    workgroupSize * ceilDiv8 gridSize < gridSize + workgroupSize := by
  refine ⟨?_, rfl, ?_, ?_⟩
  · rw [P0.render_ops]
    rfl
  · unfold workgroupSize ceilDiv8
    omega
  · unfold workgroupSize ceilDiv8
    omega

/-- C6 witness: grid dimension 13 (not a multiple of 8) dispatches 2 x 2
workgroups, and 2 tiles of 8 cells cover the 13 cells in each dimension. -/
theorem c6_dispatch_covers_witness :
    (0 < 13) ∧
    (computeDispatchOf (P0.render 100 13 ⟨0, 0, 0, 0, 0⟩ 0).2 =
       some (ceilDiv8 13, ceilDiv8 13) ∧
     computeDispatchOf (P1.render 100 13 ⟨0, 0, 0, 0, 0⟩ 0).2 =
       some (ceilDiv8 13, ceilDiv8 13) ∧
     13 ≤ workgroupSize * ceilDiv8 13 ∧
     workgroupSize * ceilDiv8 13 < 13 + workgroupSize) :=
  ⟨by decide, c6_dispatch_covers 100 13 0 ⟨0, 0, 0, 0, 0⟩ (by decide)⟩

/-- C8: a reset request on an engine at grid size N rewrites both state
buffers in place with one fresh N^2-cell random draw (so the grid is
still N x N) and changes nothing else: the renderer fields (active
direction, lastSwitch alias lastAdvanceTime, frame counters), the pending
tick schedule, the grid and time uniforms, and the vertex buffer all stay
exactly as they were. -/
theorem c8_reset_frame_effect (randoms : Nat → Rat) (s : EngineState) :
    (Simulation.reset randoms s).stateBufs.bufA =
      randomDraw (s.gridSize * s.gridSize) randoms ∧
    (Simulation.reset randoms s).stateBufs.bufB =
      randomDraw (s.gridSize * s.gridSize) randoms ∧
    (Simulation.reset randoms s).stateBufs.bufA.length = s.gridSize * s.gridSize ∧
    (Simulation.reset randoms s).gridSize = s.gridSize ∧
    (Simulation.reset randoms s).renderer = s.renderer ∧
    (Simulation.reset randoms s).scheduled = s.scheduled ∧
    (Simulation.reset randoms s).gridUniform = s.gridUniform ∧
    (Simulation.reset randoms s).timeCell = s.timeCell ∧
    (Simulation.reset randoms s).vertexBuf = s.vertexBuf :=
  ⟨rfl, rfl, by simp [Simulation.reset, randomDraw], rfl, rfl, rfl, rfl, rfl, rfl⟩

/-- C9 (amended): a grid-size change first cancels the pending next-tick
schedule, then rebuilds the entire session from scratch for the new
dimension N (fresh grid uniform [N, N], two freshly drawn N^2 state
buffers holding the same draw, a fresh renderer — never an in-place
edit) and schedules a new tick; the renderer's lastSwitch alias
lastAdvanceTime and frame counters restart from 0, not from the
triggering timestamp as the claim states (see the counterexample). -/
theorem c9_resize_teardown (newSize : Nat) (randoms : Nat → Rat) (s : EngineState) :
    (Engine.onGridSizeChange newSize randoms s).1.scheduled = false ∧
    (Engine.onGridSizeChange newSize randoms s).2 = Engine.init newSize randoms ∧
    (Engine.onGridSizeChange newSize randoms s).2.gridSize = newSize ∧
    (Engine.onGridSizeChange newSize randoms s).2.gridUniform =
      [(newSize : Rat), (newSize : Rat)] ∧
    (Engine.onGridSizeChange newSize randoms s).2.stateBufs.bufA =
      randomDraw (newSize * newSize) randoms ∧
    (Engine.onGridSizeChange newSize randoms s).2.stateBufs.bufA =
      (Engine.onGridSizeChange newSize randoms s).2.stateBufs.bufB ∧
    (Engine.onGridSizeChange newSize randoms s).2.renderer = ⟨0, 0, 0, 0, 0⟩ ∧
    (Engine.onGridSizeChange newSize randoms s).2.scheduled = true :=
  ⟨rfl, rfl, rfl, rfl, rfl, rfl, rfl, rfl⟩

/-- C9 counterexample: resizing to 32 from a running engine whose renderer
has lastSwitch = 900 and frame window anchored at 900 yields a renderer
with lastSwitch = 0 and lastFrame = 0 — not the triggering timestamp
(say 900, or any later trigger time): the code resets the counters to
zero, not to the trigger time. -/
theorem c9_counterexample :
    (Engine.onGridSizeChange 32 demoRandoms
        { Engine.init 64 demoRandoms with
            renderer := ⟨900, 5, 60, 1, 900⟩ }).2.renderer.lastSwitch = 0 ∧
    (Engine.onGridSizeChange 32 demoRandoms
        { Engine.init 64 demoRandoms with
            renderer := ⟨900, 5, 60, 1, 900⟩ }).2.renderer.lastFrame = 0 ∧
    (0 : Nat) ≠ 900 :=
  ⟨rfl, rfl, by decide⟩

/-- C10: after every reset the two state buffers hold identical contents —
the single fresh draw of gridSize^2 cells is written to both — so either
buffer can again serve as the current state immediately after the reset,
for any engine state, not only at session start. -/
theorem c10_reset_buffers_identical (randoms : Nat → Rat) (s : EngineState) :
    (Simulation.reset randoms s).stateBufs.bufA =
      (Simulation.reset randoms s).stateBufs.bufB ∧
    (Simulation.reset randoms s).stateBufs.bufB =
      randomDraw (s.gridSize * s.gridSize) randoms ∧
    (Simulation.reset randoms s).stateBufs.bufB.length =
      s.gridSize * s.gridSize :=
  ⟨rfl, rfl, by simp [Simulation.reset, randomDraw]⟩
